import Mathlib

/-!
Verification development for the gd-monitor garage-door monitor.

Shallow embedding of `src/sensor.py` and `src/garage-monitor.py`:

* Python floats are modelled as exact rationals (`ℚ`), Python ints as `Int`.
* The GPIO echo line is modelled as a stream `reads : Nat → Bool` giving the
  value returned by the n-th call to `GPIO.input(echo_pin)`; each busy-poll
  loop test consumes one read.
* Wall-clock timestamps (`time.time()`) observed inside the monitor loop are
  supplied as per-cycle inputs.
* Failure (a raised-and-caught exception) is explicit in return types.
-/

namespace GdMonitor

/-! ### sensor.py -/

/-- Constant `_TEMPERATURE = 20` (sensor.py line 10). -/
def _TEMPERATURE : ℚ := 20

/-- Constant `_SPEED_OF_SOUND = 33100 + (0.6 * _TEMPERATURE)` (sensor.py line 11). -/
def _SPEED_OF_SOUND : ℚ := 33100 + (0.6 * _TEMPERATURE)

/-- Constant `_MAX_ECHO_COUNT = 1000` (sensor.py line 14). -/
def _MAX_ECHO_COUNT : Nat := 1000

/-- Constant `_ECHO_PULSE_LOST_1` (sensor.py line 16). -/
def _ECHO_PULSE_LOST_1 : String := "echo pulse lost 1"

/-- Constant `_ECHO_PULSE_LOST_2` (sensor.py line 17). -/
def _ECHO_PULSE_LOST_2 : String := "echo pulse lost 2"

/-- Outcome of one `while GPIO.input(self._echo_pin) == 0:` busy-poll loop of
`DistanceSensor.get_measurement`.  `rose pos c iters`: the loop exited because a
read returned 1; `pos` is the index of the next unconsumed read, `c` the value
of `echo_counter` on exit, `iters` the number of loop-body executions.
`lost tag pos iters`: `raise SystemError(tag)` was executed (the body execution
that raises is counted in `iters`). -/
inductive EchoWait where
  | rose (pos c iters : Nat)
  | lost (tag : String) (pos iters : Nat)
deriving DecidableEq, Repr

/-- The `while GPIO.input(self._echo_pin) == 0:` busy-poll loop of
`DistanceSensor.get_measurement` (sensor.py lines 151-156, and again lines
158-163 — the two loops are textually identical except for the error tag and
share the `echo_counter` variable, passed here as `c`):

    while GPIO.input(self._echo_pin) == 0:
        if echo_counter < _MAX_ECHO_COUNT:
            start_time = time.time()
            echo_counter += 1
        else:
            raise SystemError(tag)

The `start_time` timestamp is not modelled (no claim concerns the returned
elapsed-time value).  `iters` accumulates loop-body executions. -/
def echo_wait_zero (tag : String) (reads : Nat → Bool) (pos c iters : Nat) : EchoWait :=
  if reads pos = false then
    if h : c < _MAX_ECHO_COUNT then
      echo_wait_zero tag reads (pos + 1) (c + 1) (iters + 1)
    else
      .lost tag (pos + 1) (iters + 1)
  else
    .rose (pos + 1) c iters
termination_by _MAX_ECHO_COUNT + 1 - c
decreasing_by omega

/-- The `while GPIO.input(self._echo_pin) == 1:` loop of
`DistanceSensor.get_measurement` (sensor.py line 165):

    while GPIO.input(self._echo_pin) == 1:
        stop_time = time.time()

This loop has NO iteration bound in the source; `fuel` bounds only how many
reads the model simulates.  `some (pos, iters)` means the loop exited after
`iters` body executions with `pos` the next unconsumed read; `none` means the
loop was still running after `fuel` reads (a modelling artifact standing for
"did not terminate within the simulated read budget"). -/
def echo_wait_one (reads : Nat → Bool) (pos iters : Nat) : (fuel : Nat) → Option (Nat × Nat)
  | 0 => none
  | fuel + 1 =>
    if reads pos = true then echo_wait_one reads (pos + 1) (iters + 1) fuel
    else some (pos + 1, iters)

/-- Result of one execution of the `try:` body of `DistanceSensor.get_measurement`
(sensor.py lines 133-170).  `ok pos echo_counter p1iters p2iters p3iters`
records the next unconsumed read, the final `echo_counter`, and the number of
body executions of the three busy-poll loops.  `exn tag pos` is a raised
`SystemError` (caught by the `except` at line 172).  `fuelOut` is the modelling
artifact propagated from `echo_wait_one`. -/
inductive AttemptResult where
  | ok (pos echo_counter p1iters p2iters p3iters : Nat)
  | exn (tag : String) (pos : Nat)
  | fuelOut
deriving DecidableEq, Repr

/-- One execution of the `try:` body of `DistanceSensor.get_measurement`
(sensor.py lines 133-170): emit the trigger pulse (lines 140-146, two GPIO
writes and a sleep — no echo reads), set `echo_counter = 1` (line 150), run the
two `== 0` wait loops with the shared counter, then the unbounded `== 1` loop. -/
def take_sensor_measurement (reads : Nat → Bool) (fuel pos : Nat) : AttemptResult :=
  match echo_wait_zero _ECHO_PULSE_LOST_1 reads pos 1 0 with
  | .lost tag p _ => .exn tag p
  | .rose p1 c1 i1 =>
    match echo_wait_zero _ECHO_PULSE_LOST_2 reads p1 c1 0 with
    | .lost tag p _ => .exn tag p
    | .rose p2 c2 i2 =>
      match echo_wait_one reads p2 0 fuel with
      | none => .fuelOut
      | some (p3, i3) => .ok p3 c2 i1 i2 i3

/-- Source `DistanceSensor.get_measurement` (sensor.py lines 121-179): the
`while execute_measurement:` retry loop.  Every attempt re-runs the whole
`try:` body from the trigger pulse; a raised `SystemError` is caught by the
`except` (line 172) which sets `execute_measurement = True`, i.e. retries.
`pulses` accumulates the GPIO writes made to the trigger pin — each attempt
contributes `[true, false]` (lines 140 and 146) — so the returned list shows
how many full handshakes were started.  On success the function returns
`some (echo_counter, pulses)` (the source returns `(elapsed_time, echo_counter)`;
the elapsed-time float is not constrained by any claim and is not modelled).
`retries` bounds the number of attempts the model simulates; `none` is the
modelling artifact for "still retrying / still busy-polling after the
simulated budget" — the source loops forever instead. -/
def get_measurement (reads : Nat → Bool) (fuel : Nat) (pulses : List Bool) (pos : Nat) :
    (retries : Nat) → Option (Nat × List Bool)
  | 0 => none
  | r + 1 =>
    match take_sensor_measurement reads fuel pos with
    | .exn _ p => get_measurement reads fuel (pulses ++ [true, false]) p r
    | .fuelOut => none
    | .ok _ c _ _ _ => some (c, pulses ++ [true, false])

/-- Source `DistanceSensor.calculate_distance` (sensor.py lines 107-119):

    distance = measurement * _SPEED_OF_SOUND
    distance = distance / 2
-/
def calculate_distance (measurement : ℚ) : ℚ :=
  (measurement * _SPEED_OF_SOUND) / 2

/-! ### garage-monitor.py -/

/-- Constant `DOOR_OPEN = "open"` (garage-monitor.py line 46). -/
def DOOR_OPEN : String := "open"

/-- Constant `DOOR_CLOSED = "closed"` (garage-monitor.py line 47). -/
def DOOR_CLOSED : String := "closed"

/-- Constant `GD_CLOSER_CLOSED = "setgdclosed"` (garage-monitor.py line 61). -/
def GD_CLOSER_CLOSED : String := "setgdclosed"

/-- Constant `GD_CLOSER_OPEN = "setgdopen"` (garage-monitor.py line 62). -/
def GD_CLOSER_OPEN : String := "setgdopen"

/-- Constant `INTERNET_CHECK_INTERVAL = 600.0` (garage-monitor.py line 66). -/
def INTERNET_CHECK_INTERVAL : ℚ := 600

/-- Python `int()` applied to a float: truncation toward zero
(used at garage-monitor.py line 301). -/
def pyInt (q : ℚ) : Int := if 0 ≤ q then ⌊q⌋ else ⌈q⌉

/-- Source `get_average_measurement` (garage-monitor.py lines 106-127): sum the
samples returned by `distance_sensor.get_measurement()` starting from
`measurement = 0.0`, then divide by `num_measurements`.  The samples list
stands for the successive `distance_measurement` values; `num_measurements`
is its length (the loop runs exactly once per sample). -/
def get_average_measurement (samples : List ℚ) : ℚ :=
  (samples.foldl (fun m d => m + d) 0) / (samples.length : ℚ)

/-- The outbound notification intents of the monitor loop, one constructor per
external side effect it can request:
`doorOpened` / `doorClosed` — `slack_iot.post_message(DOOR_OPENED_MESSAGE /
DOOR_CLOSED_MESSAGE)` (lines 248, 275); `openDurationWarning m` —
`slack_iot.post_message(DOOR_OPEN_WARNING_MESSAGE.format(m))` (line 315);
`statusPush cmd` — `post_gdoor_status(cmd)` (lines 257, 281);
`connectivityResult b` — the "Internet check PASSED/FAILED" log branch taken
by the watchdog (lines 325-333). -/
inductive Intent where
  | doorOpened
  | doorClosed
  | openDurationWarning (minutes : Int)
  | statusPush (command : String)
  | connectivityResult (passed : Bool)
deriving DecidableEq, Repr

/-- The per-iteration mutable state of `monitor_door`'s `while True:` loop
(garage-monitor.py lines 185-196).  `opened_time` is the Python local variable
of the same name: it is unbound (`none`) until the first Closed-to-Open
transition assigns it (line 254); reading it while unbound would raise
`NameError`. -/
structure MonitorState where
  iteration : Int
  door_previous_status : String
  door_status : String
  last_warning : Int
  opened_time : Option ℚ
  internet_check_timer : ℚ
deriving DecidableEq, Repr

/-- The state as initialized before the loop (garage-monitor.py lines 185-194):
`iteration = -1`, both statuses `DOOR_CLOSED` ("First time through assume door
is closed"), `last_warning = 0`, `opened_time` unbound,
`internet_check_timer = 0`. -/
def initial_state : MonitorState :=
  { iteration := -1
    door_previous_status := DOOR_CLOSED
    door_status := DOOR_CLOSED
    last_warning := 0
    opened_time := none
    internet_check_timer := 0 }

/-- The environment values one iteration of the monitor loop observes:
`distance` — the value computed at line 214 (`calculate_distance` applied to
the cycle's averaged measurement; the measurement subsystem is modelled
separately, see `get_average_measurement` and `calculate_distance`);
`tOpen` — what `time.time()` would return at line 254;
`tNow` — what `time.time()` would return at line 299;
`netOk` — what `check_internet()` would return during this cycle's watchdog
check (line 325), were it called. -/
structure CycleInput where
  distance : ℚ
  tOpen : ℚ
  tNow : ℚ
  netOk : Bool
deriving DecidableEq, Repr

/-- Lines 230-286 of `monitor_door`: the `if door_status != door_previous_status:`
block.  Arguments are the freshly classified `door_status`, the previous
status, the current `opened_time` binding, the (already incremented)
`iteration` counter and the `time.time()` value that line 254 would record.
Returns the updated `(door_previous_status, opened_time, intents)`: a
`Closed→Open` transition records `opened_time` (line 254), emits `doorOpened`
only when `iteration > 0` (line 247) and always emits the open status push
(line 257); an `Open→Closed` transition leaves `opened_time` untouched (no
line of the block clears it), emits `doorClosed` only when `iteration > 0`
(line 274) and the closed status push (line 281); no change emits nothing. -/
def door_state_change (door_status door_previous_status : String) (opened_time : Option ℚ)
    (iteration : Int) (tOpen : ℚ) : String × Option ℚ × List Intent :=
  if door_status ≠ door_previous_status then
    if door_status = DOOR_OPEN then
      (DOOR_OPEN, some tOpen,
        (if iteration > 0 then [Intent.doorOpened] else [])
          ++ [Intent.statusPush GD_CLOSER_OPEN])
    else
      (DOOR_CLOSED, opened_time,
        (if iteration > 0 then [Intent.doorClosed] else [])
          ++ [Intent.statusPush GD_CLOSER_CLOSED])
  else
    (door_previous_status, opened_time, ([] : List Intent))

/-- Lines 299-316 of `monitor_door`: the open-duration warning block, run only
while the door is open, with `t0` the (bound) value of `opened_time`:

    elapsed_open_time_mins = int((time.time() - opened_time) / 60.0)
    if elapsed_open_time_mins > 0 and (elapsed_open_time_mins % warning_threshold) == 0:
        if elapsed_open_time_mins != last_warning:
            ...post warning...
            last_warning = elapsed_open_time_mins

Returns the updated `(last_warning, intents)`. -/
def open_door_warning (warning_threshold last_warning : Int) (tNow t0 : ℚ) :
    Int × List Intent :=
  let elapsed_open_time_mins := pyInt ((tNow - t0) / 60)
  if elapsed_open_time_mins > 0 ∧ Int.emod elapsed_open_time_mins warning_threshold = 0 then
    if elapsed_open_time_mins ≠ last_warning then
      (elapsed_open_time_mins, [Intent.openDurationWarning elapsed_open_time_mins])
    else
      (last_warning, ([] : List Intent))
  else
    (last_warning, ([] : List Intent))

/-- Lines 324-335 of `monitor_door`: the connectivity watchdog.  Returns the
updated `(internet_check_timer, intents)`.  NOTE: the source tests
`if check_internet:` — the function object itself, which is always truthy,
instead of the call `check_internet()` — so the PASSED branch is taken
unconditionally; the result `check_internet()` would have produced is never
consulted, which is why this function takes no such argument. -/
def internet_watchdog (internet_check_timer time_between_avg_measurements : ℚ) :
    ℚ × List Intent :=
  if internet_check_timer ≥ INTERNET_CHECK_INTERVAL then
    ((0 : ℚ), [Intent.connectivityResult true])
  else
    (internet_check_timer + time_between_avg_measurements, ([] : List Intent))

/-- One iteration of the `while True:` loop of `monitor_door`
(garage-monitor.py lines 196-335), from the computed `distance` onwards.
Returns the updated state and the intents emitted this cycle, in program
order; `none` models the `NameError` crash that reading an unbound
`opened_time` at line 299 would raise. -/
def monitor_cycle (open_threshold : ℚ) (warning_threshold : Int)
    (time_between_avg_measurements : ℚ) (s : MonitorState) (inp : CycleInput) :
    Option (MonitorState × List Intent) :=
  -- line 198: iteration += 1
  let iteration := s.iteration + 1
  -- lines 222-225: classify
  let door_status := if inp.distance < open_threshold then DOOR_OPEN else DOOR_CLOSED
  -- lines 230-286
  let tr := door_state_change door_status s.door_previous_status s.opened_time iteration inp.tOpen
  -- lines 298-316 (guarded by `if door_status == DOOR_OPEN:` at line 298)
  let warn : Option (Int × List Intent) :=
    if door_status = DOOR_OPEN then
      match tr.2.1 with
      | none => none
      | some t0 => some (open_door_warning warning_threshold s.last_warning inp.tNow t0)
    else
      some (s.last_warning, ([] : List Intent))
  match warn with
  | none => none
  | some wr =>
    -- lines 324-335
    let net := internet_watchdog s.internet_check_timer time_between_avg_measurements
    some ({ iteration := iteration
            door_previous_status := tr.1
            door_status := door_status
            last_warning := wr.1
            opened_time := tr.2.1
            internet_check_timer := net.1 },
          tr.2.2 ++ wr.2 ++ net.2)

/-- What one loop iteration looked like from outside: the classification it
computed (the value of `door_status` at line 227) and the intents it emitted. -/
structure CycleRecord where
  door_status : String
  intents : List Intent
deriving DecidableEq, Repr

/-- Run `monitor_cycle` over a list of per-cycle inputs, recording each cycle's
classification and intents.  `none` propagates a `monitor_cycle` crash. -/
def run_monitor (open_threshold : ℚ) (warning_threshold : Int)
    (time_between_avg_measurements : ℚ) :
    MonitorState → List CycleInput → Option (MonitorState × List CycleRecord)
  | s, [] => some (s, [])
  | s, inp :: rest =>
    match monitor_cycle open_threshold warning_threshold time_between_avg_measurements s inp with
    | none => none
    | some (s', intents) =>
      match run_monitor open_threshold warning_threshold time_between_avg_measurements s' rest with
      | none => none
      | some (sf, recs) => some (sf, ⟨s'.door_status, intents⟩ :: recs)

/-- Returns `true` exactly for `openDurationWarning` intents. -/
def Intent.isWarning : Intent → Bool
  | .openDurationWarning _ => true
  | _ => false

/-- The number of loop-body executions an `EchoWait` outcome records. -/
def EchoWait.itersOf : EchoWait → Nat
  | .rose _ _ i => i
  | .lost _ _ i => i

/-- Invariant linking the loop state's fields: at every loop boundary the two
status variables agree, and whenever the door is open `opened_time` is bound. -/
def StateInv (s : MonitorState) : Prop :=
  s.door_previous_status = s.door_status ∧
  (s.door_status = DOOR_OPEN → s.opened_time ≠ none)

/-- Escalation scenario (C1): warning threshold 30, door open since time 0
(distance 40 < threshold 50 every cycle), polling instants whose integer
open-minutes values are 0, 15, 30, 30, 31, 60, 60, 61 — the 30 and 60 marks
are each visited twice (the cycle revisits the same integer minute). -/
def escalation_inputs : List CycleInput :=
  [⟨40, 0, 0, true⟩,
   ⟨40, 0, 900, true⟩,
   ⟨40, 0, 1800, true⟩,
   ⟨40, 0, 1800, true⟩,
   ⟨40, 0, 1860, true⟩,
   ⟨40, 0, 3600, true⟩,
   ⟨40, 0, 3600, true⟩,
   ⟨40, 0, 3660, true⟩]

/-- Flap scenario (C3): averaged distances 60, 40, 60, 40 against
`open_threshold = 50`. -/
def flap_inputs : List CycleInput :=
  [⟨60, 0, 0, true⟩,
   ⟨40, 10, 10, true⟩,
   ⟨60, 20, 20, true⟩,
   ⟨40, 30, 30, true⟩]

/-- Shared second episode for the C9 scenarios: the door closes, reopens at
time 10000, and is polled 30 integer minutes into the new episode. -/
def reopen_episode_inputs : List CycleInput :=
  [⟨60, 0, 0, true⟩,
   ⟨40, 10000, 10000, true⟩,
   ⟨40, 0, 11800, true⟩]

/-- C9 scenario A: the first open episode reaches the 30-minute mark (so a
warning fires and `last_warning` is left at 30), then the shared second
episode runs. -/
def warned_first_episode_inputs : List CycleInput :=
  [⟨40, 0, 0, true⟩, ⟨40, 0, 1800, true⟩] ++ reopen_episode_inputs

/-- C9 scenario B: identical to scenario A except the first episode is polled
at minute 15 instead of minute 30 (no warning fires), then the same shared
second episode runs. -/
def unwarned_first_episode_inputs : List CycleInput :=
  [⟨40, 0, 0, true⟩, ⟨40, 0, 900, true⟩] ++ reopen_episode_inputs

/-- C4 scenario: the door opens (distance 40) at time 100 and closes
(distance 60) on the next cycle. -/
def open_then_close_inputs : List CycleInput :=
  [⟨40, 100, 100, true⟩, ⟨60, 0, 200, true⟩]

/-- C5 scenario: polling interval 600 s, door closed throughout, and
`check_internet()` would return `b` on every cycle. -/
def watchdog_inputs (b : Bool) : List CycleInput :=
  [⟨60, 0, 0, b⟩, ⟨60, 0, 0, b⟩]

/-- An echo line that never rises: every `GPIO.input` read returns 0. -/
def never_rising_echo : Nat → Bool := fun _ => false

/-- An echo line that is already high and stays high for 1003 consecutive
reads (indices 0–1002), then goes low. -/
def long_high_echo : Nat → Bool := fun i => decide (i < 1003)

/-- An echo line that stays low for the first 1000 reads (indices 0–999),
is high for reads 1000–1004, and low afterwards. -/
def lost_then_good_echo : Nat → Bool := fun i => decide (1000 ≤ i ∧ i < 1005)

end GdMonitor

namespace GdMonitor

/-! ### Helper lemmas -/

theorem DOOR_OPEN_ne_DOOR_CLOSED : (DOOR_OPEN = DOOR_CLOSED) = False := by
  simp [DOOR_OPEN, DOOR_CLOSED]

theorem DOOR_CLOSED_ne_DOOR_OPEN : (DOOR_CLOSED = DOOR_OPEN) = False := by
  simp [DOOR_CLOSED, DOOR_OPEN]

theorem door_state_change_fst (d p : String) (o : Option ℚ) (i : Int) (t : ℚ)
    (hd : d = DOOR_OPEN ∨ d = DOOR_CLOSED) :
    (door_state_change d p o i t).1 = d := by
  rcases hd with h | h <;> subst h <;> unfold door_state_change <;> split_ifs <;> simp_all

theorem door_state_change_opened (d p : String) (o : Option ℚ) (i : Int) (t : ℚ)
    (hd : d = DOOR_OPEN ∨ d = DOOR_CLOSED) :
    (door_state_change d p o i t).2.1 =
      if d = DOOR_OPEN ∧ ¬ p = DOOR_OPEN then some t else o := by
  rcases hd with h | h <;> subst h <;> unfold door_state_change <;> split_ifs <;>
    simp_all [DOOR_CLOSED_ne_DOOR_OPEN, eq_comm]

theorem door_state_change_doorOpened_mem (d p : String) (o : Option ℚ) (i : Int) (t : ℚ) :
    Intent.doorOpened ∈ (door_state_change d p o i t).2.2 → i > 0 := by
  unfold door_state_change
  split_ifs <;> simp_all

theorem door_state_change_doorClosed_mem (d p : String) (o : Option ℚ) (i : Int) (t : ℚ) :
    Intent.doorClosed ∈ (door_state_change d p o i t).2.2 → i > 0 := by
  unfold door_state_change
  split_ifs <;> simp_all

theorem open_door_warning_cases (wt lw : Int) (tNow t0 : ℚ) :
    ((open_door_warning wt lw tNow t0).1 = lw ∧ (open_door_warning wt lw tNow t0).2 = []) ∨
      (open_door_warning wt lw tNow t0).2 =
        [Intent.openDurationWarning (open_door_warning wt lw tNow t0).1] := by
  unfold open_door_warning
  dsimp only
  split_ifs <;> simp_all

theorem internet_watchdog_cases (tm cd : ℚ) :
    (internet_watchdog tm cd).2 = [] ∨
      (internet_watchdog tm cd).2 = [Intent.connectivityResult true] := by
  unfold internet_watchdog
  split_ifs <;> simp

theorem monitor_cycle_inv (th : ℚ) (wt : Int) (cd : ℚ) (s : MonitorState) (inp : CycleInput)
    (s' : MonitorState) (out : List Intent)
    (h : monitor_cycle th wt cd s inp = some (s', out)) :
    s'.door_status = (if inp.distance < th then DOOR_OPEN else DOOR_CLOSED) ∧
    s'.door_previous_status = s'.door_status ∧
    s'.opened_time =
      (if (if inp.distance < th then DOOR_OPEN else DOOR_CLOSED) = DOOR_OPEN ∧
          ¬ s.door_previous_status = DOOR_OPEN
       then some inp.tOpen else s.opened_time) ∧
    ((if inp.distance < th then DOOR_OPEN else DOOR_CLOSED) = DOOR_CLOSED →
      s'.last_warning = s.last_warning) ∧
    (s'.last_warning = s.last_warning ∨ Intent.openDurationWarning s'.last_warning ∈ out) ∧
    s'.iteration = s.iteration + 1 ∧
    (Intent.doorOpened ∈ out → s.iteration + 1 > 0) ∧
    (Intent.doorClosed ∈ out → s.iteration + 1 > 0) := by
  by_cases hd : inp.distance < th
  · -- classified DOOR_OPEN
    rcases ho : (door_state_change DOOR_OPEN s.door_previous_status s.opened_time
        (s.iteration + 1) inp.tOpen).2.1 with _ | t0
    · simp only [monitor_cycle, hd, if_true, ite_true, ho] at h
      simp at h
    · simp only [monitor_cycle, hd, if_true, ite_true, ho] at h
      simp only [Option.some.injEq, Prod.mk.injEq] at h
      obtain ⟨h1, h2⟩ := h
      subst h1; subst h2
      refine ⟨by simp [hd], ?_, ?_, ?_, ?_, by simp, ?_, ?_⟩
      · simp [hd]
        exact door_state_change_fst _ _ _ _ _ (Or.inl rfl)
      · simp [hd]
        rw [door_state_change_opened _ _ _ _ _ (Or.inl rfl)] at ho
        by_cases hp : s.door_previous_status = DOOR_OPEN <;> simp [hp] at ho ⊢ <;>
          exact ho.symm
      · simp [hd, DOOR_OPEN_ne_DOOR_CLOSED]
      · rcases open_door_warning_cases wt s.last_warning inp.tNow t0 with ⟨hl, _⟩ | hr
        · exact Or.inl (by simp [hl])
        · refine Or.inr ?_
          simp only [List.mem_append]
          exact Or.inl (Or.inr (by rw [hr]; simp))
      · intro hm
        simp only [List.mem_append] at hm
        rcases hm with (hm | hm) | hm
        · exact door_state_change_doorOpened_mem _ _ _ _ _ hm
        · rcases open_door_warning_cases wt s.last_warning inp.tNow t0 with ⟨_, hl⟩ | hr
          · rw [hl] at hm; simp at hm
          · rw [hr] at hm; simp at hm
        · rcases internet_watchdog_cases s.internet_check_timer cd with hn | hn <;>
            rw [hn] at hm <;> simp at hm
      · intro hm
        simp only [List.mem_append] at hm
        rcases hm with (hm | hm) | hm
        · exact door_state_change_doorClosed_mem _ _ _ _ _ hm
        · rcases open_door_warning_cases wt s.last_warning inp.tNow t0 with ⟨_, hl⟩ | hr
          · rw [hl] at hm; simp at hm
          · rw [hr] at hm; simp at hm
        · rcases internet_watchdog_cases s.internet_check_timer cd with hn | hn <;>
            rw [hn] at hm <;> simp at hm
  · -- classified DOOR_CLOSED
    simp only [monitor_cycle, hd, if_false, ite_false, DOOR_CLOSED_ne_DOOR_OPEN] at h
    simp only [Option.some.injEq, Prod.mk.injEq] at h
    obtain ⟨h1, h2⟩ := h
    subst h1; subst h2
    refine ⟨by simp [hd], ?_, ?_, by simp, by simp, by simp, ?_, ?_⟩
    · simp [hd]
      exact door_state_change_fst _ _ _ _ _ (Or.inr rfl)
    · simp [hd, DOOR_CLOSED_ne_DOOR_OPEN]
      rw [door_state_change_opened _ _ _ _ _ (Or.inr rfl)]
      simp [DOOR_CLOSED_ne_DOOR_OPEN]
    · intro hm
      simp only [List.mem_append] at hm
      rcases hm with (hm | hm) | hm
      · exact door_state_change_doorOpened_mem _ _ _ _ _ hm
      · simp at hm
      · rcases internet_watchdog_cases s.internet_check_timer cd with hn | hn <;>
          rw [hn] at hm <;> simp at hm
    · intro hm
      simp only [List.mem_append] at hm
      rcases hm with (hm | hm) | hm
      · exact door_state_change_doorClosed_mem _ _ _ _ _ hm
      · simp at hm
      · rcases internet_watchdog_cases s.internet_check_timer cd with hn | hn <;>
          rw [hn] at hm <;> simp at hm

theorem monitor_cycle_StateInv (th : ℚ) (wt : Int) (cd : ℚ) (s : MonitorState)
    (inp : CycleInput) (s' : MonitorState) (out : List Intent)
    (h : monitor_cycle th wt cd s inp = some (s', out)) (hs : StateInv s) : StateInv s' := by
  obtain ⟨h1, h2, h3, _, _, _, _, _⟩ := monitor_cycle_inv th wt cd s inp s' out h
  refine ⟨h2, ?_⟩
  intro hopen
  rw [h3]
  by_cases hc : (if inp.distance < th then DOOR_OPEN else DOOR_CLOSED) = DOOR_OPEN ∧
      ¬ s.door_previous_status = DOOR_OPEN
  · rw [if_pos hc]
    simp
  · rw [if_neg hc]
    rw [hopen] at h1
    obtain ⟨hsp, hso⟩ := hs
    apply hso
    have hprev : s.door_previous_status = DOOR_OPEN := by
      by_contra hq
      exact hc ⟨h1.symm, hq⟩
    rw [← hsp]
    exact hprev

theorem run_monitor_StateInv (th : ℚ) (wt : Int) (cd : ℚ) :
    ∀ (inputs : List CycleInput) (s sf : MonitorState) (recs : List CycleRecord),
      run_monitor th wt cd s inputs = some (sf, recs) → StateInv s → StateInv sf := by
  intro inputs
  induction inputs with
  | nil =>
    intro s sf recs h hs
    simp only [run_monitor, Option.some.injEq, Prod.mk.injEq] at h
    obtain ⟨h1, _⟩ := h
    rwa [← h1]
  | cons a l ih =>
    intro s sf recs h hs
    rcases hm : monitor_cycle th wt cd s a with _ | ⟨s1, out1⟩
    · simp only [run_monitor, hm] at h
      simp at h
    · simp only [run_monitor, hm] at h
      rcases hr : run_monitor th wt cd s1 l with _ | ⟨sf1, recs1⟩
      · rw [hr] at h; simp at h
      · rw [hr] at h
        simp only [Option.some.injEq, Prod.mk.injEq] at h
        obtain ⟨h1, _⟩ := h
        subst h1
        exact ih s1 sf1 recs1 hr (monitor_cycle_StateInv th wt cd s a s1 out1 hm hs)

end GdMonitor

namespace GdMonitor

theorem echo_wait_zero_all_false (tag : String) (reads : Nat → Bool) :
    ∀ k c pos iters, _MAX_ECHO_COUNT - c = k → c ≤ _MAX_ECHO_COUNT →
      (∀ j, j ≤ _MAX_ECHO_COUNT - c → reads (pos + j) = false) →
      echo_wait_zero tag reads pos c iters =
        .lost tag (pos + (_MAX_ECHO_COUNT - c) + 1) (iters + (_MAX_ECHO_COUNT - c) + 1) := by
  intro k
  induction k with
  | zero =>
    intro c pos iters hk hc hall
    have h0 : reads pos = false := by simpa using hall 0 (by omega)
    have hlt : ¬ c < _MAX_ECHO_COUNT := by omega
    rw [echo_wait_zero, if_pos h0, dif_neg hlt, hk]
  | succ k ih =>
    intro c pos iters hk hc hall
    have h0 : reads pos = false := by simpa using hall 0 (by omega)
    have hlt : c < _MAX_ECHO_COUNT := by omega
    have hall' : ∀ j, j ≤ _MAX_ECHO_COUNT - (c + 1) → reads (pos + 1 + j) = false := by
      intro j hj
      have := hall (j + 1) (by omega)
      rwa [show pos + (j + 1) = pos + 1 + j by omega] at this
    rw [echo_wait_zero, if_pos h0, dif_pos hlt,
      ih (c + 1) (pos + 1) (iters + 1) (by omega) (by omega) hall']
    have e1 : pos + 1 + (_MAX_ECHO_COUNT - (c + 1)) + 1 = pos + (_MAX_ECHO_COUNT - c) + 1 := by
      omega
    have e2 : iters + 1 + (_MAX_ECHO_COUNT - (c + 1)) + 1 =
        iters + (_MAX_ECHO_COUNT - c) + 1 := by
      omega
    rw [e1, e2]

theorem echo_wait_zero_cases (tag : String) (reads : Nat → Bool) :
    ∀ k c pos iters, _MAX_ECHO_COUNT - c = k → c ≤ _MAX_ECHO_COUNT →
      (∃ p c2 i2, echo_wait_zero tag reads pos c iters = .rose p c2 i2 ∧
          c2 = c + (i2 - iters) ∧ iters ≤ i2 ∧ i2 - iters ≤ _MAX_ECHO_COUNT - c ∧
          c2 ≤ _MAX_ECHO_COUNT) ∨
      (∃ p, echo_wait_zero tag reads pos c iters =
          .lost tag p (iters + (_MAX_ECHO_COUNT - c) + 1)) := by
  intro k
  induction k with
  | zero =>
    intro c pos iters hk hc
    cases h0 : reads pos with
    | false =>
      have hlt : ¬ c < _MAX_ECHO_COUNT := by omega
      refine Or.inr ⟨pos + 1, ?_⟩
      rw [echo_wait_zero, if_pos h0, dif_neg hlt, hk]
    | true =>
      refine Or.inl ⟨pos + 1, c, iters, ?_, by omega, by omega, by omega, hc⟩
      rw [echo_wait_zero, if_neg (by simp [h0] : ¬ reads pos = false)]
  | succ k ih =>
    intro c pos iters hk hc
    cases h0 : reads pos with
    | true =>
      refine Or.inl ⟨pos + 1, c, iters, ?_, by omega, by omega, by omega, hc⟩
      rw [echo_wait_zero, if_neg (by simp [h0] : ¬ reads pos = false)]
    | false =>
      have hlt : c < _MAX_ECHO_COUNT := by omega
      have hstep : echo_wait_zero tag reads pos c iters =
          echo_wait_zero tag reads (pos + 1) (c + 1) (iters + 1) := by
        rw [echo_wait_zero, if_pos h0, dif_pos hlt]
      rcases ih (c + 1) (pos + 1) (iters + 1) (by omega) (by omega) with
        ⟨p, c2, i2, heq, hc2, hle, hb, hmax⟩ | ⟨p, heq⟩
      · refine Or.inl ⟨p, c2, i2, ?_, by omega, by omega, by omega, hmax⟩
        rw [hstep]; exact heq
      · refine Or.inr ⟨p, ?_⟩
        rw [hstep, heq]
        have e2 : iters + 1 + (_MAX_ECHO_COUNT - (c + 1)) + 1 =
            iters + (_MAX_ECHO_COUNT - c) + 1 := by
          omega
        rw [e2]

theorem echo_wait_zero_itersOf_le (tag : String) (reads : Nat → Bool) (pos c iters : Nat)
    (hc : c ≤ _MAX_ECHO_COUNT) :
    (echo_wait_zero tag reads pos c iters).itersOf ≤ iters + (_MAX_ECHO_COUNT - c) + 1 := by
  rcases echo_wait_zero_cases tag reads (_MAX_ECHO_COUNT - c) c pos iters rfl hc with
    ⟨p, c2, i2, heq, _, hle, hb, _⟩ | ⟨p, heq⟩ <;> rw [heq] <;>
      simp only [EchoWait.itersOf] <;> omega

theorem echo_wait_zero_rose_counter (tag : String) (reads : Nat → Bool) (pos c iters : Nat)
    (p c2 i2 : Nat) (hc : c ≤ _MAX_ECHO_COUNT)
    (h : echo_wait_zero tag reads pos c iters = .rose p c2 i2) :
    c2 = c + (i2 - iters) ∧ iters ≤ i2 ∧ i2 - iters ≤ _MAX_ECHO_COUNT - c ∧
      c2 ≤ _MAX_ECHO_COUNT := by
  rcases echo_wait_zero_cases tag reads (_MAX_ECHO_COUNT - c) c pos iters rfl hc with
    ⟨p', c2', i2', heq, hc2, hle, hb, hmax⟩ | ⟨p', heq⟩
  · rw [h] at heq
    simp only [EchoWait.rose.injEq] at heq
    obtain ⟨hp, hcc, hii⟩ := heq
    subst hp; subst hcc; subst hii
    exact ⟨hc2, hle, hb, hmax⟩
  · rw [h] at heq
    simp at heq

end GdMonitor

namespace GdMonitor

/-- On an echo line that reads high exactly for indices below `n`, the fall
loop exits after `n - pos` body iterations (given enough fuel). -/
theorem echo_wait_one_high_prefix (n : Nat) :
    ∀ fuel pos iters, pos ≤ n → n - pos < fuel →
      echo_wait_one (fun i => decide (i < n)) pos iters fuel =
        some (n + 1, iters + (n - pos)) := by
  intro fuel
  induction fuel with
  | zero =>
    intro pos iters hp hf
    exact absurd hf (by omega)
  | succ f ih =>
    intro pos iters hp hf
    by_cases hpos : pos < n
    · have hstep : echo_wait_one (fun i => decide (i < n)) pos iters (f + 1) =
          echo_wait_one (fun i => decide (i < n)) (pos + 1) (iters + 1) f := by
        simp only [echo_wait_one]
        rw [if_pos (by simp [hpos])]
      rw [hstep, ih (pos + 1) (iters + 1) (by omega) (by omega)]
      have e : iters + 1 + (n - (pos + 1)) = iters + (n - pos) := by omega
      rw [e]
    · have hpe : pos = n := by omega
      subst hpe
      simp only [echo_wait_one]
      rw [if_neg (by simp)]
      simp

/-- Claim C10: within one attempt the two `== 0` wait loops share `echo_counter`,
which is never reset between them: if the first loop exited after `k` body
iterations its counter is `k + 1`, and the second loop — wherever the echo
line goes next — performs at most `_MAX_ECHO_COUNT - k` further iterations
before exiting or raising, so the two loops together never exceed
`_MAX_ECHO_COUNT` iterations. -/
theorem shared_echo_budget (reads : Nat → Bool) (pos p c k : Nat)
    (h : echo_wait_zero _ECHO_PULSE_LOST_1 reads pos 1 0 = .rose p c k) :
    c = k + 1 ∧
    (echo_wait_zero _ECHO_PULSE_LOST_2 reads p c 0).itersOf ≤ _MAX_ECHO_COUNT - k ∧
    k + (echo_wait_zero _ECHO_PULSE_LOST_2 reads p c 0).itersOf ≤ _MAX_ECHO_COUNT := by
  obtain ⟨hc2, hle, hb, hmax⟩ :=
    echo_wait_zero_rose_counter _ECHO_PULSE_LOST_1 reads pos 1 0 p c k
      (by norm_num [_MAX_ECHO_COUNT]) h
  have hphase2 := echo_wait_zero_itersOf_le _ECHO_PULSE_LOST_2 reads p c 0 (by omega)
  refine ⟨by omega, by omega, by omega⟩

/-- Witness for `shared_echo_budget`: an echo line that is low for the first
five reads and then high, so the first wait loop consumes exactly 5
iterations and exits with `echo_counter = 6`. -/
theorem shared_echo_budget_witness :
    6 = 5 + 1 ∧
    (echo_wait_zero _ECHO_PULSE_LOST_2 (fun i => decide (5 ≤ i)) 6 6 0).itersOf ≤
      _MAX_ECHO_COUNT - 5 ∧
    5 + (echo_wait_zero _ECHO_PULSE_LOST_2 (fun i => decide (5 ≤ i)) 6 6 0).itersOf ≤
      _MAX_ECHO_COUNT :=
  shared_echo_budget (fun i => decide (5 ≤ i)) 0 6 6 5 (by
    simp [echo_wait_zero, _MAX_ECHO_COUNT])

/-- Claim C6, counterexample: in a single attempt whose echo line stays high for
1003 consecutive reads, the wait-for-echo-fall loop runs 1001 > 1000 body
iterations — the fall phase is NOT bounded by `_MAX_ECHO_COUNT`. -/
theorem fall_phase_unbounded_counterexample :
    take_sensor_measurement long_high_echo 2000 0 = .ok 1004 1 0 0 1001 ∧
    _MAX_ECHO_COUNT < 1001 := by
  constructor
  · have h1 : echo_wait_zero _ECHO_PULSE_LOST_1 long_high_echo 0 1 0 = .rose 1 1 0 := by
      rw [echo_wait_zero,
        if_neg (by simp [long_high_echo] : ¬ long_high_echo 0 = false)]
    have h2 : echo_wait_zero _ECHO_PULSE_LOST_2 long_high_echo 1 1 0 = .rose 2 1 0 := by
      rw [echo_wait_zero,
        if_neg (by simp [long_high_echo] : ¬ long_high_echo 1 = false)]
    have h3 : echo_wait_one long_high_echo 2 0 2000 = some (1004, 1001) := by
      have := echo_wait_one_high_prefix 1003 2000 2 0 (by omega) (by omega)
      simpa [long_high_echo] using this
    simp only [take_sensor_measurement, h1, h2, h3]
  · norm_num [_MAX_ECHO_COUNT]

/-- Claim C6, amended: the wait-for-echo-rise and confirm phases are bounded —
from counter value `c` a `== 0` wait loop performs at most
`_MAX_ECHO_COUNT - c + 1` body iterations (hence at most `_MAX_ECHO_COUNT`
for the first phase, which starts at `c = 1`) before exiting or raising —
but the wait-for-echo-fall phase has no iteration bound: on an echo line
that never falls it is still running after any number of reads. -/
theorem echo_phase_bounds_amended :
    (∀ (tag : String) (reads : Nat → Bool) (pos c iters : Nat), c ≤ _MAX_ECHO_COUNT →
        (echo_wait_zero tag reads pos c iters).itersOf ≤
          iters + (_MAX_ECHO_COUNT - c) + 1) ∧
    (∀ (tag : String) (reads : Nat → Bool) (pos : Nat),
        (echo_wait_zero tag reads pos 1 0).itersOf ≤ _MAX_ECHO_COUNT) ∧
    (∀ (pos iters fuel : Nat), echo_wait_one (fun _ => true) pos iters fuel = none) := by
  refine ⟨fun tag reads pos c iters hc => echo_wait_zero_itersOf_le tag reads pos c iters hc,
    ?_, ?_⟩
  · intro tag reads pos
    have hone : (1 : Nat) ≤ _MAX_ECHO_COUNT := by norm_num [_MAX_ECHO_COUNT]
    have := echo_wait_zero_itersOf_le tag reads pos 1 0 hone
    omega
  · intro pos iters fuel
    induction fuel generalizing pos iters with
    | zero => rfl
    | succ n ih => simpa [echo_wait_one] using ih (pos + 1) (iters + 1)

/-- Witness for `echo_phase_bounds_amended`: the bounded-phase part applied to
the never-rising echo line at `c = 1`, and the unbounded-fall part at fuel 7. -/
theorem echo_phase_bounds_amended_witness :
    (echo_wait_zero _ECHO_PULSE_LOST_1 never_rising_echo 0 1 0).itersOf ≤
        0 + (_MAX_ECHO_COUNT - 1) + 1 ∧
    echo_wait_one (fun _ => true) 0 0 7 = none :=
  ⟨echo_phase_bounds_amended.1 _ECHO_PULSE_LOST_1 never_rising_echo 0 1 0 (by decide),
   echo_phase_bounds_amended.2.2 0 0 7⟩

/-- Unfolding step for `take_sensor_measurement` when the first wait loop
raises `echo pulse lost 1`. -/
theorem take_sensor_measurement_exn1 (reads : Nat → Bool) (fuel pos p i : Nat)
    (h : echo_wait_zero _ECHO_PULSE_LOST_1 reads pos 1 0 = .lost _ECHO_PULSE_LOST_1 p i) :
    take_sensor_measurement reads fuel pos = .exn _ECHO_PULSE_LOST_1 p := by
  unfold take_sensor_measurement
  rw [h]

/-- Unfolding step for `take_sensor_measurement` when all three wait loops
complete. -/
theorem take_sensor_measurement_ok (reads : Nat → Bool)
    (fuel pos p1 c1 i1 p2 c2 i2 p3 i3 : Nat)
    (h1 : echo_wait_zero _ECHO_PULSE_LOST_1 reads pos 1 0 = .rose p1 c1 i1)
    (h2 : echo_wait_zero _ECHO_PULSE_LOST_2 reads p1 c1 0 = .rose p2 c2 i2)
    (h3 : echo_wait_one reads p2 0 fuel = some (p3, i3)) :
    take_sensor_measurement reads fuel pos = .ok p3 c2 i1 i2 i3 := by
  unfold take_sensor_measurement
  simp only [h1, h2, h3]

/-- Unfolding step for `get_measurement`: a failed attempt is caught and
retried from the attempt's final read position, recording the trigger pulse
the attempt emitted. -/
theorem get_measurement_exn_step (reads : Nat → Bool) (fuel : Nat) (pulses : List Bool)
    (pos r : Nat) (tag : String) (p : Nat)
    (h : take_sensor_measurement reads fuel pos = .exn tag p) :
    get_measurement reads fuel pulses pos (r + 1) =
      get_measurement reads fuel (pulses ++ [true, false]) p r := by
  simp only [get_measurement, h]

/-- Unfolding step for `get_measurement`: a successful attempt returns its
`echo_counter` and the accumulated trigger pulses. -/
theorem get_measurement_ok_step (reads : Nat → Bool) (fuel : Nat) (pulses : List Bool)
    (pos r p c i1 i2 i3 : Nat)
    (h : take_sensor_measurement reads fuel pos = .ok p c i1 i2 i3) :
    get_measurement reads fuel pulses pos (r + 1) = some (c, pulses ++ [true, false]) := by
  simp only [get_measurement, h]

/-- Claim C7: on an echo line that stays low for the first 1000 reads and then
behaves, the first wait loop performs exactly `_MAX_ECHO_COUNT = 1000` body
iterations before `echo pulse lost 1` is raised; the raise is caught
internally (`take_sensor_measurement` yields `exn`, and `get_measurement`
still returns a sample to the caller), and the retry re-runs the whole
handshake: a second trigger pulse is emitted (`[true, false, true, false]`
accumulates two pulses) and the second attempt restarts with a fresh
`echo_counter = 1`. -/
theorem echo_lost_retry_fresh_handshake :
    echo_wait_zero _ECHO_PULSE_LOST_1 lost_then_good_echo 0 1 0 =
      .lost _ECHO_PULSE_LOST_1 1000 _MAX_ECHO_COUNT ∧
    take_sensor_measurement lost_then_good_echo 5 0 = .exn _ECHO_PULSE_LOST_1 1000 ∧
    take_sensor_measurement lost_then_good_echo 5 1000 = .ok 1006 1 0 0 3 ∧
    get_measurement lost_then_good_echo 5 [] 0 2 =
      some (1, [true, false, true, false]) := by
  have h1 : echo_wait_zero _ECHO_PULSE_LOST_1 lost_then_good_echo 0 1 0 =
      .lost _ECHO_PULSE_LOST_1 1000 _MAX_ECHO_COUNT := by
    have hall : ∀ j, j ≤ _MAX_ECHO_COUNT - 1 → lost_then_good_echo (0 + j) = false := by
      intro j hj
      have hj2 : j ≤ 999 := by simpa [_MAX_ECHO_COUNT] using hj
      simp only [lost_then_good_echo, decide_eq_false_iff_not]
      omega
    have := echo_wait_zero_all_false _ECHO_PULSE_LOST_1 lost_then_good_echo
      (_MAX_ECHO_COUNT - 1) 1 0 0 rfl (by norm_num [_MAX_ECHO_COUNT]) hall
    rw [this]
    norm_num [_MAX_ECHO_COUNT]
  have h2 : take_sensor_measurement lost_then_good_echo 5 0 =
      .exn _ECHO_PULSE_LOST_1 1000 :=
    take_sensor_measurement_exn1 lost_then_good_echo 5 0 1000 _MAX_ECHO_COUNT h1
  have p1 : echo_wait_zero _ECHO_PULSE_LOST_1 lost_then_good_echo 1000 1 0 =
      .rose 1001 1 0 := by
    rw [echo_wait_zero,
      if_neg (by simp [lost_then_good_echo] : ¬ lost_then_good_echo 1000 = false)]
  have p2 : echo_wait_zero _ECHO_PULSE_LOST_2 lost_then_good_echo 1001 1 0 =
      .rose 1002 1 0 := by
    rw [echo_wait_zero,
      if_neg (by simp [lost_then_good_echo] : ¬ lost_then_good_echo 1001 = false)]
  have p3 : echo_wait_one lost_then_good_echo 1002 0 5 = some (1006, 3) := by decide
  have h3 : take_sensor_measurement lost_then_good_echo 5 1000 = .ok 1006 1 0 0 3 :=
    take_sensor_measurement_ok lost_then_good_echo 5 1000 1001 1 0 1002 1 0 1006 3 p1 p2 p3
  have h4 : get_measurement lost_then_good_echo 5 [] 0 2 =
      some (1, [true, false, true, false]) := by
    rw [get_measurement_exn_step lost_then_good_echo 5 [] 0 1 _ECHO_PULSE_LOST_1 1000 h2,
      get_measurement_ok_step lost_then_good_echo 5 ([] ++ [true, false]) 1000 0
        1006 1 0 0 3 h3]
    rfl
  exact ⟨h1, h2, h3, h4⟩
end GdMonitor

namespace GdMonitor

/-- Claim C1: with `warning_threshold = 30` and the door continuously open since
time 0, over cycles whose integer open-minutes values are
0, 15, 30, 30, 31, 60, 60, 61, the `openDurationWarning` intent is emitted
exactly once at the 30-minute mark and exactly once at the 60-minute mark,
and at no other cycle — revisiting the same integer minute does not repeat
the warning. -/
theorem escalation_dedup_marks :
    (run_monitor 50 30 1 initial_state escalation_inputs).map
        (fun p => p.2.map fun r => r.intents.filter Intent.isWarning) =
      some [[], [], [Intent.openDurationWarning 30], [], [],
            [Intent.openDurationWarning 60], [], []] := by
  norm_num [run_monitor, monitor_cycle, door_state_change, open_door_warning,
    internet_watchdog, escalation_inputs, initial_state, pyInt, INTERNET_CHECK_INTERVAL,
    DOOR_OPEN_ne_DOOR_CLOSED, DOOR_CLOSED_ne_DOOR_OPEN, Intent.isWarning]

end GdMonitor

namespace GdMonitor

/-- Claim C3, counterexample: with `open_threshold = 50` the averaged distances
60, 40, 60, 40 do NOT classify as Open, Closed, Open, Closed — a distance
below the threshold means Open (the sensor sees the door panel closer than
the threshold), so the actual sequence is Closed, Open, Closed, Open. -/
theorem flap_sequence_counterexample :
    (run_monitor 50 30 1 initial_state flap_inputs).map
        (fun p => p.2.map fun r => r.door_status) ≠
      some [DOOR_OPEN, DOOR_CLOSED, DOOR_OPEN, DOOR_CLOSED] := by
  have hval : (run_monitor 50 30 1 initial_state flap_inputs).map
      (fun p => p.2.map fun r => r.door_status) =
      some [DOOR_CLOSED, DOOR_OPEN, DOOR_CLOSED, DOOR_OPEN] := by
    norm_num [run_monitor, monitor_cycle, door_state_change, open_door_warning,
      internet_watchdog, flap_inputs, initial_state, pyInt, INTERNET_CHECK_INTERVAL,
      DOOR_OPEN_ne_DOOR_CLOSED, DOOR_CLOSED_ne_DOOR_OPEN]
  rw [hval]
  simp [DOOR_OPEN, DOOR_CLOSED]

/-- Claim C3, amended: distances 60, 40, 60, 40 against threshold 50 classify as
Closed, Open, Closed, Open; cycles 2, 3 and 4 each emit a transition intent
pair (door notification + status push), while cycle 1 emits nothing — its
Closed classification equals the assumed initial state, so there is no
transition. -/
theorem flap_sequence_behavior :
    (run_monitor 50 30 1 initial_state flap_inputs).map
        (fun p => p.2.map fun r => (r.door_status, r.intents)) =
      some [(DOOR_CLOSED, []),
            (DOOR_OPEN, [Intent.doorOpened, Intent.statusPush GD_CLOSER_OPEN]),
            (DOOR_CLOSED, [Intent.doorClosed, Intent.statusPush GD_CLOSER_CLOSED]),
            (DOOR_OPEN, [Intent.doorOpened, Intent.statusPush GD_CLOSER_OPEN])] := by
  norm_num [run_monitor, monitor_cycle, door_state_change, open_door_warning,
    internet_watchdog, flap_inputs, initial_state, pyInt, INTERNET_CHECK_INTERVAL,
    DOOR_OPEN_ne_DOOR_CLOSED, DOOR_CLOSED_ne_DOOR_OPEN]

/-- Claim C4, counterexample: after the door opens at time 100 and closes on the
next cycle, the loop state has `door_status = DOOR_CLOSED` yet `opened_time`
is still `some 100` — the Open-to-Closed transition never clears it, so
"unset whenever the door is Closed" fails in a reachable state. -/
theorem opened_time_retained_counterexample :
    (run_monitor 50 30 1 initial_state open_then_close_inputs).map
        (fun p => (p.1.door_status, p.1.opened_time)) =
      some (DOOR_CLOSED, some 100) ∧
    some (100 : ℚ) ≠ (none : Option ℚ) := by
  constructor
  · norm_num [run_monitor, monitor_cycle, door_state_change, open_door_warning,
      internet_watchdog, open_then_close_inputs, initial_state, pyInt,
      INTERNET_CHECK_INTERVAL, DOOR_OPEN_ne_DOOR_CLOSED, DOOR_CLOSED_ne_DOOR_OPEN]
  · simp

/-- Claim C5: the watchdog branch fires once the timer has accumulated 600 s,
but the source's `if check_internet:` tests the function object (always
truthy) instead of calling it, so the emitted result is `connectivityResult
true` regardless of the value `b` that `check_internet()` would actually
have returned — a failing check can never produce a failure result. -/
theorem connectivity_check_never_invoked :
    ∀ b : Bool,
      (run_monitor 50 30 600 initial_state (watchdog_inputs b)).map
          (fun p => p.2.map fun r => r.intents) =
        some [[], [Intent.connectivityResult true]] := by
  intro b
  norm_num [run_monitor, monitor_cycle, door_state_change, open_door_warning,
    internet_watchdog, watchdog_inputs, initial_state, pyInt, INTERNET_CHECK_INTERVAL,
    DOOR_OPEN_ne_DOOR_CLOSED, DOOR_CLOSED_ne_DOOR_OPEN]

/-- Claim C9, counterexample: two runs that differ only in the first open episode
(scenario A is polled at minute 30 and records `last_warning = 30`; scenario
B is polled at minute 15 and records nothing) and share the identical
close/reopen/poll-at-minute-30 suffix.  Episode two emits no warning in
scenario A — the stale `last_warning = 30` from the previous episode
suppresses it — but emits the 30-minute warning in scenario B, so the
warnings of a later episode DO depend on the value left behind. -/
theorem warning_mark_leak_counterexample :
    (run_monitor 50 30 1 initial_state warned_first_episode_inputs).map
        (fun p => p.2.map fun r => r.intents.filter Intent.isWarning) =
      some [[], [Intent.openDurationWarning 30], [], [], []] ∧
    (run_monitor 50 30 1 initial_state unwarned_first_episode_inputs).map
        (fun p => p.2.map fun r => r.intents.filter Intent.isWarning) =
      some [[], [], [], [], [Intent.openDurationWarning 30]] ∧
    List.drop 2 warned_first_episode_inputs = List.drop 2 unwarned_first_episode_inputs := by
  refine ⟨?_, ?_, rfl⟩
  · norm_num [run_monitor, monitor_cycle, door_state_change, open_door_warning,
      internet_watchdog, warned_first_episode_inputs, reopen_episode_inputs, initial_state,
      pyInt, INTERNET_CHECK_INTERVAL, DOOR_OPEN_ne_DOOR_CLOSED, DOOR_CLOSED_ne_DOOR_OPEN,
      Intent.isWarning]
  · norm_num [run_monitor, monitor_cycle, door_state_change, open_door_warning,
      internet_watchdog, unwarned_first_episode_inputs, reopen_episode_inputs, initial_state,
      pyInt, INTERNET_CHECK_INTERVAL, DOOR_OPEN_ne_DOOR_CLOSED, DOOR_CLOSED_ne_DOOR_OPEN,
      Intent.isWarning]

end GdMonitor

namespace GdMonitor

/-- Claim C2: on the very first polling cycle (`iteration` becomes 0), whatever
the classified state, neither `doorOpened` nor `doorClosed` is emitted (the
`iteration > 0` guards suppress both), the loop state still records the
classification, and a `statusPush` may still be emitted — as the sub-input
with distance `th - 1` (classified Open) shows. -/
theorem first_cycle_suppression (th : ℚ) (wt : Int) (cd : ℚ) (inp : CycleInput) :
    ∃ s' out, monitor_cycle th wt cd initial_state inp = some (s', out) ∧
      Intent.doorOpened ∉ out ∧ Intent.doorClosed ∉ out ∧
      s'.door_status = (if inp.distance < th then DOOR_OPEN else DOOR_CLOSED) ∧
      ∃ s2 out2,
        monitor_cycle th wt cd initial_state ⟨th - 1, inp.tOpen, inp.tOpen, true⟩ =
          some (s2, out2) ∧ Intent.statusPush GD_CLOSER_OPEN ∈ out2 := by
  have hd2 : th - 1 < th := by linarith
  have hpush : monitor_cycle th wt cd initial_state ⟨th - 1, inp.tOpen, inp.tOpen, true⟩ =
      some ({ iteration := 0, door_previous_status := DOOR_OPEN, door_status := DOOR_OPEN,
              last_warning := 0, opened_time := some inp.tOpen,
              internet_check_timer := cd },
            [Intent.statusPush GD_CLOSER_OPEN]) := by
    norm_num [monitor_cycle, door_state_change, open_door_warning, internet_watchdog,
      initial_state, pyInt, INTERNET_CHECK_INTERVAL, DOOR_OPEN_ne_DOOR_CLOSED, hd2]
  by_cases hd : inp.distance < th
  · have hm : monitor_cycle th wt cd initial_state inp =
        some ({ iteration := 0, door_previous_status := DOOR_OPEN, door_status := DOOR_OPEN,
                last_warning := (open_door_warning wt 0 inp.tNow inp.tOpen).1,
                opened_time := some inp.tOpen, internet_check_timer := cd },
              [Intent.statusPush GD_CLOSER_OPEN] ++
                (open_door_warning wt 0 inp.tNow inp.tOpen).2) := by
      norm_num [monitor_cycle, door_state_change, internet_watchdog, initial_state, hd,
        INTERNET_CHECK_INTERVAL, DOOR_OPEN_ne_DOOR_CLOSED]
    refine ⟨_, _, hm, ?_, ?_, by simp [hd], ⟨_, _, hpush, by simp⟩⟩
    · rcases open_door_warning_cases wt 0 inp.tNow inp.tOpen with ⟨_, h2⟩ | h2 <;>
        simp [h2]
    · rcases open_door_warning_cases wt 0 inp.tNow inp.tOpen with ⟨_, h2⟩ | h2 <;>
        simp [h2]
  · have hm : monitor_cycle th wt cd initial_state inp =
        some ({ iteration := 0, door_previous_status := DOOR_CLOSED,
                door_status := DOOR_CLOSED, last_warning := 0, opened_time := none,
                internet_check_timer := cd }, []) := by
      norm_num [monitor_cycle, door_state_change, internet_watchdog, initial_state, hd,
        INTERNET_CHECK_INTERVAL, DOOR_CLOSED_ne_DOOR_OPEN]
    exact ⟨_, _, hm, by simp, by simp, by simp [hd], ⟨_, _, hpush, by simp⟩⟩

/-- Witness for `first_cycle_suppression`: threshold 50, warning threshold 30,
polling interval 1, first-cycle distance 60. -/
theorem first_cycle_suppression_witness :
    ∃ s' out, monitor_cycle 50 30 1 initial_state ⟨60, 0, 0, true⟩ = some (s', out) ∧
      Intent.doorOpened ∉ out ∧ Intent.doorClosed ∉ out ∧
      s'.door_status = (if (60:ℚ) < 50 then DOOR_OPEN else DOOR_CLOSED) ∧
      ∃ s2 out2,
        monitor_cycle 50 30 1 initial_state ⟨(50:ℚ) - 1, 0, 0, true⟩ = some (s2, out2) ∧
        Intent.statusPush GD_CLOSER_OPEN ∈ out2 :=
  first_cycle_suppression 50 30 1 ⟨60, 0, 0, true⟩

/-- Claim C4, amended: `opened_time` is recorded on every transition into Open
and is otherwise left unchanged — in particular it is NOT cleared on an
Open-to-Closed transition — and in every state reachable from the initial
state, whenever the door is Open, `opened_time` is bound (so the warning
block never reads an unbound variable). -/
theorem opened_time_invariant_amended :
    (∀ (th : ℚ) (wt : Int) (cd : ℚ) (s : MonitorState) (inp : CycleInput)
        (s' : MonitorState) (out : List Intent),
        monitor_cycle th wt cd s inp = some (s', out) →
        s'.opened_time =
          (if (if inp.distance < th then DOOR_OPEN else DOOR_CLOSED) = DOOR_OPEN ∧
              ¬ s.door_previous_status = DOOR_OPEN
           then some inp.tOpen else s.opened_time)) ∧
    (∀ (th : ℚ) (wt : Int) (cd : ℚ) (inputs : List CycleInput)
        (sf : MonitorState) (recs : List CycleRecord),
        run_monitor th wt cd initial_state inputs = some (sf, recs) →
        sf.door_status = DOOR_OPEN → sf.opened_time ≠ none) := by
  constructor
  · intro th wt cd s inp s' out h
    exact (monitor_cycle_inv th wt cd s inp s' out h).2.2.1
  · intro th wt cd inputs sf recs h
    have hinv : StateInv initial_state := by
      refine ⟨rfl, ?_⟩
      intro hopen
      exact absurd hopen (by simp [initial_state, DOOR_CLOSED_ne_DOOR_OPEN])
    exact (run_monitor_StateInv th wt cd inputs initial_state sf recs h hinv).2

/-- Witness for `opened_time_invariant_amended`: the single-step part at a
concrete Closed-classification cycle (no recording, no clearing), and the
reachability part at the empty trace. -/
theorem opened_time_invariant_amended_witness :
    (({ iteration := 0, door_previous_status := DOOR_CLOSED, door_status := DOOR_CLOSED,
        last_warning := 0, opened_time := none,
        internet_check_timer := 1 } : MonitorState).opened_time =
      (if (if (60:ℚ) < 50 then DOOR_OPEN else DOOR_CLOSED) = DOOR_OPEN ∧
          ¬ initial_state.door_previous_status = DOOR_OPEN
       then some ((0:ℚ)) else initial_state.opened_time)) ∧
    (initial_state.door_status = DOOR_OPEN → initial_state.opened_time ≠ none) :=
  ⟨opened_time_invariant_amended.1 50 30 1 initial_state ⟨60, 0, 0, true⟩
      { iteration := 0, door_previous_status := DOOR_CLOSED, door_status := DOOR_CLOSED,
        last_warning := 0, opened_time := none, internet_check_timer := 1 } []
      (by
        simp [monitor_cycle, door_state_change, internet_watchdog, initial_state,
          INTERNET_CHECK_INTERVAL, DOOR_CLOSED_ne_DOOR_OPEN,
          (show ¬((60:ℚ) < 50) by decide), (show ¬((0:ℚ) ≥ (600:ℚ)) by decide)]),
   opened_time_invariant_amended.2 50 30 1 [] initial_state [] rfl⟩

/-- Claim C8: averaging then converting equals converting then averaging —
`calculate_distance` applied to the mean elapsed time is exactly the
arithmetic mean of the per-sample distances (the calculator is linear), and
a single sample's distance is returned unchanged. -/
theorem aggregator_mean (ts : List ℚ) (h : ts ≠ []) :
    calculate_distance (get_average_measurement ts) =
      ((ts.map calculate_distance).foldl (fun m d => m + d) 0) / (ts.length : ℚ) ∧
    ∀ t : ℚ, calculate_distance (get_average_measurement [t]) = calculate_distance t := by
  constructor
  · have key : ∀ (l : List ℚ) (a : ℚ),
        (l.map calculate_distance).foldl (fun m d => m + d) (calculate_distance a) =
          calculate_distance (l.foldl (fun m d => m + d) a) := by
      intro l
      induction l with
      | nil => intro a; simp
      | cons x l ih =>
        intro a
        simp only [List.map_cons, List.foldl_cons]
        have e : calculate_distance a + calculate_distance x =
            calculate_distance (a + x) := by
          unfold calculate_distance; ring
        rw [e, ih (a + x)]
    have hz : calculate_distance 0 = 0 := by unfold calculate_distance; ring
    have hsum := key ts 0
    rw [hz] at hsum
    unfold get_average_measurement
    rw [hsum]
    unfold calculate_distance
    ring
  · intro t
    norm_num [get_average_measurement, calculate_distance]

/-- Witness for `aggregator_mean` at the two-sample list `[1, 3]`. -/
theorem aggregator_mean_witness :
    calculate_distance (get_average_measurement [1, 3]) =
      ((([1, 3] : List ℚ).map calculate_distance).foldl (fun m d => m + d) 0) /
        ((([1, 3] : List ℚ).length : ℚ)) ∧
    ∀ t : ℚ, calculate_distance (get_average_measurement [t]) = calculate_distance t :=
  aggregator_mean [1, 3] (by simp)

/-- Claim C9, amended: `last_warning` changes only when a warning is emitted —
a Closed classification always leaves it unchanged — but it is NOT reset
when the door closes: in scenario A the stale mark 30 left by the first
episode suppresses the second episode's 30-minute warning, which the
otherwise-identical scenario B does emit. -/
theorem warning_mark_amended :
    (∀ (th : ℚ) (wt : Int) (cd : ℚ) (s : MonitorState) (inp : CycleInput)
        (s' : MonitorState) (out : List Intent),
        monitor_cycle th wt cd s inp = some (s', out) →
        (((if inp.distance < th then DOOR_OPEN else DOOR_CLOSED) = DOOR_CLOSED →
            s'.last_warning = s.last_warning) ∧
          (s'.last_warning = s.last_warning ∨
            Intent.openDurationWarning s'.last_warning ∈ out))) ∧
    (run_monitor 50 30 1 initial_state warned_first_episode_inputs).map
        (fun p => p.2.map fun r => r.intents.filter Intent.isWarning) =
      some [[], [Intent.openDurationWarning 30], [], [], []] ∧
    (run_monitor 50 30 1 initial_state unwarned_first_episode_inputs).map
        (fun p => p.2.map fun r => r.intents.filter Intent.isWarning) =
      some [[], [], [], [], [Intent.openDurationWarning 30]] := by
  refine ⟨?_, ?_, ?_⟩
  · intro th wt cd s inp s' out h
    obtain ⟨_, _, _, h4, h5, _, _, _⟩ := monitor_cycle_inv th wt cd s inp s' out h
    exact ⟨h4, h5⟩
  · norm_num [run_monitor, monitor_cycle, door_state_change, open_door_warning,
      internet_watchdog, warned_first_episode_inputs, reopen_episode_inputs, initial_state,
      pyInt, INTERNET_CHECK_INTERVAL, DOOR_OPEN_ne_DOOR_CLOSED, DOOR_CLOSED_ne_DOOR_OPEN,
      Intent.isWarning]
  · norm_num [run_monitor, monitor_cycle, door_state_change, open_door_warning,
      internet_watchdog, unwarned_first_episode_inputs, reopen_episode_inputs, initial_state,
      pyInt, INTERNET_CHECK_INTERVAL, DOOR_OPEN_ne_DOOR_CLOSED, DOOR_CLOSED_ne_DOOR_OPEN,
      Intent.isWarning]

/-- Witness for `warning_mark_amended`: the single-step part at a concrete
Closed-classification cycle. -/
theorem warning_mark_amended_witness :
    ((if (60:ℚ) < 50 then DOOR_OPEN else DOOR_CLOSED) = DOOR_CLOSED →
      ({ iteration := 0, door_previous_status := DOOR_CLOSED, door_status := DOOR_CLOSED,
         last_warning := 0, opened_time := none,
         internet_check_timer := 1 } : MonitorState).last_warning =
        initial_state.last_warning) ∧
    (({ iteration := 0, door_previous_status := DOOR_CLOSED, door_status := DOOR_CLOSED,
        last_warning := 0, opened_time := none,
        internet_check_timer := 1 } : MonitorState).last_warning =
          initial_state.last_warning ∨
      Intent.openDurationWarning
        ({ iteration := 0, door_previous_status := DOOR_CLOSED, door_status := DOOR_CLOSED,
           last_warning := 0, opened_time := none,
           internet_check_timer := 1 } : MonitorState).last_warning ∈ ([] : List Intent)) :=
  warning_mark_amended.1 50 30 1 initial_state ⟨60, 0, 0, true⟩
    { iteration := 0, door_previous_status := DOOR_CLOSED, door_status := DOOR_CLOSED,
      last_warning := 0, opened_time := none, internet_check_timer := 1 } []
    (by
      simp [monitor_cycle, door_state_change, internet_watchdog, initial_state,
        INTERNET_CHECK_INTERVAL, DOOR_CLOSED_ne_DOOR_OPEN,
        (show ¬((60:ℚ) < 50) by decide), (show ¬((0:ℚ) ≥ (600:ℚ)) by decide)])

end GdMonitor
